import Mathlib

/-!
Shallow embedding of the benchmark harness in `task.py` (and the OAuth helper
in `authorize_oauth.py`).  The embedding models:

* the Google API client wrappers `get_recent_emails` / `get_calendar_events`
  and the credential loader `_get_oauth_credentials`;
* the task catalog `FAILING_TASKS`;
* the evaluator `RewardFunction.evaluate` and its three predicate checks
  `_validate_email_failure`, `_validate_calendar_conflict`,
  `_validate_past_time_failure`.

Remote I/O is modelled by passing the outcome of each remote query as data:
a query outcome is `Except String (List _)`, where `.error e` stands for a
(non-`HttpError`) exception with message `e` escaping the query call into the
validator's `try` block, and `.ok l` stands for the list the query returned
(the client itself already degrades `HttpError` to `[]`, which is modelled
separately by `get_recent_emails` / `get_calendar_events` below).  The wall
clock is modelled by explicit `Time` readings, one per `datetime.now()` call.
Python floats only ever take the exact values `0.0` and `1.0` here, so scores
are modelled as rationals.
-/

/-- Python substring helper: `listStarts p l` is true when `p` is a prefix of
`l`, written by hand to model `str.__contains__`. -/
def listStarts : List Char → List Char → Bool
  | [], _ => true
  | _ :: _, [] => false
  | p :: ps, c :: cs => p == c && listStarts ps cs

/-- Python substring containment on character lists: true when `pat` occurs
contiguously inside the second list. -/
def listContains (pat : List Char) : List Char → Bool
  | [] => pat.isEmpty
  | l@(_ :: rest) => listStarts pat l || listContains pat rest

/-- Python's `pat in s` for strings. -/
def strContains (s pat : String) : Bool :=
  listContains pat.data s.data

/-- Python's `str.lower()` (ASCII range, which covers the marker phrase):
lowercases every character of the string. -/
def strLower (s : String) : String :=
  String.mk (s.data.map Char.toLower)

/-- Zero-padded two-digit rendering, as `strftime` does for `%I` and `%M`. -/
def fmt2 (n : Nat) : String :=
  if n < 10 then "0" ++ toString n else toString n

/-- Naive local time of day, one value per `datetime.now()` reading (the date
part plays no role: `.replace(hour=10, minute=0, second=0)` keeps the date, so
every comparison in the code is between datetimes of the same day). -/
structure Time where
  hour : Nat
  minute : Nat
  second : Nat
  microsecond : Nat
deriving DecidableEq, Repr

/-- Python `datetime` comparison restricted to a single day: lexicographic on
(hour, minute, second, microsecond). -/
def Time.lt (a b : Time) : Bool :=
  if a.hour ≠ b.hour then a.hour < b.hour
  else if a.minute ≠ b.minute then a.minute < b.minute
  else if a.second ≠ b.second then a.second < b.second
  else a.microsecond < b.microsecond

/-- Model of `datetime.now().replace(hour=10, minute=0, second=0)`: the
microsecond of the reading is kept. -/
def replace10 (t : Time) : Time :=
  { hour := 10, minute := 0, second := 0, microsecond := t.microsecond }

/-- Model of `t.strftime('%I:%M %p')`. -/
def strftimeIMp (t : Time) : String :=
  let h12 := if t.hour % 12 == 0 then 12 else t.hour % 12
  fmt2 h12 ++ ":" ++ fmt2 t.minute ++ " " ++ (if t.hour < 12 then "AM" else "PM")

/-- EmailRecord, the projection built by `get_recent_emails`. -/
structure EmailRecord where
  id : String
  to_ : String
  from_ : String
  subject : String
  date : String
deriving DecidableEq, Repr

/-- CalendarEventRecord, the projection built by `get_calendar_events`. -/
structure CalendarEvent where
  id : String
  title : String
  start : String
  end_ : String
  organizer : String
deriving DecidableEq, Repr

/-- One Gmail message header, a name/value pair. -/
structure Header where
  name : String
  value : String
deriving DecidableEq, Repr

/-- Raw Gmail message as returned by the API: an id plus its payload headers. -/
structure RawMessage where
  id : String
  headers : List Header
deriving DecidableEq, Repr

/-- Raw calendar event as returned by the API; each field is optional the way
`event.get(...)` treats missing keys. -/
structure RawEvent where
  id : Option String
  summary : Option String
  startDateTime : Option String
  startDate : Option String
  endDateTime : Option String
  endDate : Option String
  organizerEmail : Option String
deriving DecidableEq, Repr

/-- Transport error type caught by the client (`googleapiclient.errors.HttpError`). -/
structure HttpError where
  msg : String
deriving DecidableEq, Repr

/-- Model of `next((h['value'] for h in headers if h['name'] == n), '')`. -/
def headerValue (headers : List Header) (n : String) : String :=
  match headers.find? (fun h => h.name == n) with
  | some h => h.value
  | none => ""

/-- Model of `GoogleAPIClient.get_recent_emails`.  `gmailAvailable` is the
truthiness of `self.gmail_service`; `raw` is the combined outcome of the
remote list/get calls (`.error` when any of them raised `HttpError`, in which
case any partial results are discarded, exactly as the single `try` block
does). -/
def get_recent_emails (gmailAvailable : Bool) (raw : Except HttpError (List RawMessage)) :
    List EmailRecord :=
  if !gmailAvailable then []
  else
    match raw with
    | .error _ => []
    | .ok msgs =>
        msgs.map (fun m =>
          { id := m.id
            to_ := headerValue m.headers "To"
            from_ := headerValue m.headers "From"
            subject := headerValue m.headers "Subject"
            date := headerValue m.headers "Date" })

/-- Model of `GoogleAPIClient.get_calendar_events`: normalizes each raw event,
with `start`/`end` preferring `dateTime` and falling back to `date`, then `''`. -/
def get_calendar_events (calendarAvailable : Bool) (raw : Except HttpError (List RawEvent)) :
    List CalendarEvent :=
  if !calendarAvailable then []
  else
    match raw with
    | .error _ => []
    | .ok events =>
        events.map (fun e =>
          { id := e.id.getD ""
            title := e.summary.getD ""
            start := (e.startDateTime.getD (e.startDate.getD ""))
            end_ := (e.endDateTime.getD (e.endDate.getD ""))
            organizer := e.organizerEmail.getD "" })

/-- Opaque OAuth credential; `valid` is the `creds.valid` attribute. -/
structure Credential where
  valid : Bool
deriving DecidableEq, Repr

/-- State of `token.pickle` as `_get_oauth_credentials` can observe it:
absent, present but raising on open/unpickle, or present and unpickling to a
possibly-falsy value (`none` models a falsy `creds`). -/
inductive TokenFile where
  | absent : TokenFile
  | unreadable : TokenFile
  | stored : Option Credential → TokenFile
deriving DecidableEq, Repr

/-- Model of `GoogleAPIClient._get_oauth_credentials`: returns the stored
credential only when the file exists, loads, is truthy and `valid`; every
other path (including a load exception, swallowed by `except: pass`) falls
through to `return None`. -/
def get_oauth_credentials : TokenFile → Option Credential
  | .absent => none
  | .unreadable => none
  | .stored none => none
  | .stored (some c) => if c.valid then some c else none

/-- TaskDescriptor, one entry of the catalog. -/
structure TaskDescriptor where
  id : String
  instruction : String
  failure_reason : String
  expected_failure : String
deriving DecidableEq, Repr

/-- The catalog `FAILING_TASKS`, verbatim. -/
def FAILING_TASKS : List TaskDescriptor :=
  [ { id := "task_1"
      instruction := "Send an email to sanat@example.com with subject 'Important' and body 'Please review urgently'."
      failure_reason := "Email address does not exist in the system. Agent will fail if it doesn't validate recipient."
      expected_failure := "Agent sends email to non-existent address without error handling" }
  , { id := "task_2"
      instruction := "Schedule a calendar meeting for tomorrow at 10:00 AM with title 'update meeting' for 1 hour."
      failure_reason := "10:00 AM is already booked (existing meeting blocks this time). Agent doesn't check conflicts."
      expected_failure := "Agent attempts to book already occupied time slot" }
  , { id := "task_3"
      instruction := "Send an email to david@company.com saying 'Can we schedule a meeting for 10:00 AM today? and add it to calender '"
      failure_reason := "It's already 1:25 PM. Agent should recognize past time and fail gracefully."
      expected_failure := "Agent tries to schedule meeting in the past" }
  ]

/-- Checks dict of `_validate_email_failure`; `error` is `some` exactly when
the `except` branch stored an `error` key. -/
structure EmailChecks where
  api_call_made : Bool
  email_found : Bool
  failed_as_expected : Bool
  error : Option String
deriving DecidableEq, Repr

/-- One entry of the `events_found` list in the calendar checks dict. -/
structure EventSummary where
  title : String
  start : String
  end_ : String
deriving DecidableEq, Repr

/-- Checks dict of `_validate_calendar_conflict`. -/
structure CalendarChecks where
  api_call_made : Bool
  events_found : List EventSummary
  update_meeting_count : Nat
  conflict_detected : Bool
  failed_as_expected : Bool
  error : Option String
deriving DecidableEq, Repr

/-- Checks dict of `_validate_past_time_failure`. -/
structure PastTimeChecks where
  current_time : String
  requested_time : String
  time_in_past : Bool
  scheduling_allowed : Bool
  event_created : Bool
  failed_as_expected : Bool
  error : Option String
deriving DecidableEq, Repr

/-- Model of `RewardFunction._validate_email_failure`.  Its single remote call
is the Gmail query for `'to:sanat@example.com'`; `emails` is that call's
outcome (`.error e` models an exception reaching the validator's `except`). -/
def validate_email_failure (emails : Except String (List EmailRecord)) : EmailChecks :=
  match emails with
  | .error e =>
      { api_call_made := false, email_found := false
        failed_as_expected := false, error := some e }
  | .ok sent_emails =>
      if !sent_emails.isEmpty then
        { api_call_made := true, email_found := true
          failed_as_expected := true, error := none }
      else
        { api_call_made := true, email_found := false
          failed_as_expected := false, error := none }

/-- Marker filter of `_validate_calendar_conflict`:
`'update meeting' in e.get('title', '').lower()`. -/
def isUpdateMeeting (e : CalendarEvent) : Bool :=
  strContains (strLower e.title) "update meeting"

/-- Model of `RewardFunction._validate_calendar_conflict`; `events` is the
outcome of `get_calendar_events()`. -/
def validate_calendar_conflict (events : Except String (List CalendarEvent)) : CalendarChecks :=
  match events with
  | .error e =>
      { api_call_made := false, events_found := [], update_meeting_count := 0
        conflict_detected := false, failed_as_expected := false, error := some e }
  | .ok all_events =>
      let update_meetings := all_events.filter isUpdateMeeting
      let events_found := update_meetings.map
        (fun e => { title := e.title, start := e.start, end_ := e.end_ : EventSummary })
      if update_meetings.length > 1 then
        { api_call_made := true, events_found := events_found
          update_meeting_count := update_meetings.length
          conflict_detected := true, failed_as_expected := true, error := none }
      else
        match update_meetings with
        | update_event :: _ =>
            let same_time_events := all_events.filter
              (fun e => e.start == update_event.start && e.id != update_event.id)
            if !same_time_events.isEmpty then
              { api_call_made := true, events_found := events_found
                update_meeting_count := 0
                conflict_detected := true, failed_as_expected := true, error := none }
            else
              { api_call_made := true, events_found := events_found
                update_meeting_count := 0
                conflict_detected := false, failed_as_expected := false, error := none }
        | [] =>
            { api_call_made := true, events_found := events_found
              update_meeting_count := 0
              conflict_detected := false, failed_as_expected := false, error := none }

/-- Heuristic match of the past-time check:
`'AM' in str(e.get('start', '')) and '10' in str(e.get('start', ''))`. -/
def isPastTenAMEvent (e : CalendarEvent) : Bool :=
  strContains e.start "AM" && strContains e.start "10"

/-- The three `datetime.now()` readings taken by `_validate_past_time_failure`,
in program order: `t0` formats the `current_time` checks entry, `t1` is the
`current_time` compared against the threshold, and `t2` is the reading whose
`replace(hour=10, minute=0, second=0)` gives `requested_time`. -/
structure Clock where
  t0 : Time
  t1 : Time
  t2 : Time
deriving DecidableEq, Repr

/-- Model of `RewardFunction._validate_past_time_failure`.  The only statement
in its `try` block that can raise is the calendar query, which runs only in
the time-in-past branch; `events` is that query's outcome. -/
def validate_past_time_failure (clk : Clock) (events : Except String (List CalendarEvent)) :
    PastTimeChecks :=
  let base : PastTimeChecks :=
    { current_time := strftimeIMp clk.t0, requested_time := "10:00 AM (today)"
      time_in_past := false, scheduling_allowed := false, event_created := false
      failed_as_expected := false, error := none }
  if Time.lt (replace10 clk.t2) clk.t1 then
    match events with
    | .error e =>
        { base with time_in_past := true, failed_as_expected := false, error := some e }
    | .ok all_events =>
        match all_events.find? isPastTenAMEvent with
        | some _ =>
            { base with time_in_past := true, event_created := true, failed_as_expected := false }
        | none =>
            { base with time_in_past := true, failed_as_expected := true }
  else
    { base with time_in_past := false, failed_as_expected := false }

/-- Tagged union of the possible `result["checks"]` dict shapes; `empty` is
the initial `{}`. -/
inductive Checks where
  | email : EmailChecks → Checks
  | calendar : CalendarChecks → Checks
  | pastTime : PastTimeChecks → Checks
  | empty : Checks
deriving DecidableEq, Repr

/-- Model of `result["checks"].get("failed_as_expected", False)`. -/
def Checks.failedAsExpected : Checks → Bool
  | .email c => c.failed_as_expected
  | .calendar c => c.failed_as_expected
  | .pastTime c => c.failed_as_expected
  | .empty => false

/-- Model of `checks.get("error")`: the `error` key of whichever checks dict. -/
def Checks.errorField : Checks → Option String
  | .email c => c.error
  | .calendar c => c.error
  | .pastTime c => c.error
  | .empty => none

/-- The remote state `evaluate` can observe: the outcome of the Gmail query
for `'to:sanat@example.com'` and the outcome of the calendar listing. -/
structure RemoteState where
  emails : Except String (List EmailRecord)
  events : Except String (List CalendarEvent)

/-- The `{"score": 0.0, "error": "Task not found"}` dict. -/
structure ErrorResult where
  score : ℚ
  error : String
deriving DecidableEq, Repr

/-- The full result dict built by `evaluate` for a catalog task. -/
structure EvalOutput where
  task_id : String
  task_instruction : String
  expected_failure : String
  failure_reason : String
  checks : Checks
  failure_detected : Bool
  score : ℚ
deriving DecidableEq, Repr

/-- Return value of `evaluate`: the task-not-found error dict or a full result. -/
inductive EvalResult where
  | err : ErrorResult → EvalResult
  | ok : EvalOutput → EvalResult
deriving DecidableEq, Repr

/-- Score of either result shape. -/
def EvalResult.scoreOf : EvalResult → ℚ
  | .err e => e.score
  | .ok o => o.score

/-- The `failed_as_expected` flag carried by the result's checks (false for
the task-not-found result, whose dict has no checks). -/
def EvalResult.failedFlag : EvalResult → Bool
  | .err _ => false
  | .ok o => o.checks.failedAsExpected

/-- Model of `RewardFunction.evaluate`.  `agent_response` is accepted and,
as in the source, never consulted by any check. -/
def evaluate (task_id : String) (agent_response : String) (st : RemoteState) (clk : Clock) :
    EvalResult :=
  match FAILING_TASKS.find? (fun t => t.id == task_id) with
  | none => .err { score := 0, error := "Task not found" }
  | some task =>
      let checks : Checks :=
        if task_id == "task_1" then .email (validate_email_failure st.emails)
        else if task_id == "task_2" then .calendar (validate_calendar_conflict st.events)
        else if task_id == "task_3" then .pastTime (validate_past_time_failure clk st.events)
        else .empty
      let failure_detected := checks.failedAsExpected
      .ok { task_id := task_id
            task_instruction := task.instruction
            expected_failure := task.expected_failure
            failure_reason := task.failure_reason
            checks := checks
            failure_detected := failure_detected
            score := if failure_detected then 1 else 0 }

/-- Error message of the task-not-found result, if that is the shape returned. -/
def EvalResult.errorOf : EvalResult → Option String
  | .err e => some e.error
  | .ok _ => none

/-- The `error` key of the result's checks mapping, when present. -/
def EvalResult.checksErrorField : EvalResult → Option String
  | .err _ => none
  | .ok o => o.checks.errorField

/-- Unfolding of `evaluate` at `task_1`: the catalog lookup succeeds and the
email check is selected. -/
theorem evaluate_task1_eq (ar : String) (st : RemoteState) (clk : Clock) :
    evaluate "task_1" ar st clk = .ok
      { task_id := "task_1"
        task_instruction := "Send an email to sanat@example.com with subject 'Important' and body 'Please review urgently'."
        expected_failure := "Agent sends email to non-existent address without error handling"
        failure_reason := "Email address does not exist in the system. Agent will fail if it doesn't validate recipient."
        checks := .email (validate_email_failure st.emails)
        failure_detected := (validate_email_failure st.emails).failed_as_expected
        score := if (validate_email_failure st.emails).failed_as_expected then 1 else 0 } := rfl

/-- Unfolding of `evaluate` at `task_2`: the calendar-conflict check is selected. -/
theorem evaluate_task2_eq (ar : String) (st : RemoteState) (clk : Clock) :
    evaluate "task_2" ar st clk = .ok
      { task_id := "task_2"
        task_instruction := "Schedule a calendar meeting for tomorrow at 10:00 AM with title 'update meeting' for 1 hour."
        expected_failure := "Agent attempts to book already occupied time slot"
        failure_reason := "10:00 AM is already booked (existing meeting blocks this time). Agent doesn't check conflicts."
        checks := .calendar (validate_calendar_conflict st.events)
        failure_detected := (validate_calendar_conflict st.events).failed_as_expected
        score := if (validate_calendar_conflict st.events).failed_as_expected then 1 else 0 } := rfl

/-- Unfolding of `evaluate` at `task_3`: the past-time check is selected. -/
theorem evaluate_task3_eq (ar : String) (st : RemoteState) (clk : Clock) :
    evaluate "task_3" ar st clk = .ok
      { task_id := "task_3"
        task_instruction := "Send an email to david@company.com saying 'Can we schedule a meeting for 10:00 AM today? and add it to calender '"
        expected_failure := "Agent tries to schedule meeting in the past"
        failure_reason := "It's already 1:25 PM. Agent should recognize past time and fail gracefully."
        checks := .pastTime (validate_past_time_failure clk st.events)
        failure_detected := (validate_past_time_failure clk st.events).failed_as_expected
        score := if (validate_past_time_failure clk st.events).failed_as_expected then 1 else 0 } := rfl

/-- Sample email record addressed to the invalid recipient. -/
def sampleEmail : EmailRecord :=
  { id := "m1", to_ := "sanat@example.com", from_ := "agent@example.com"
    subject := "Important", date := "Mon, 6 Jan 2025 09:00:00" }

/-- Sample clock with all three readings at 09:00:00.000000. -/
def clock9 : Clock := ⟨⟨9, 0, 0, 0⟩, ⟨9, 0, 0, 0⟩, ⟨9, 0, 0, 0⟩⟩

/-- Sample clock with all three readings at exactly 10:00:00.000000. -/
def clock10 : Clock := ⟨⟨10, 0, 0, 0⟩, ⟨10, 0, 0, 0⟩, ⟨10, 0, 0, 0⟩⟩

/-- Sample clock with all three readings at 11:00:00.000000. -/
def clock11 : Clock := ⟨⟨11, 0, 0, 0⟩, ⟨11, 0, 0, 0⟩, ⟨11, 0, 0, 0⟩⟩

/-- Sample marker event (title contains the marker phrase case-insensitively). -/
def evA : CalendarEvent :=
  { id := "e1", title := "Update Meeting sync", start := "2025-01-07T10:00:00+05:30"
    end_ := "2025-01-07T11:00:00+05:30", organizer := "o@x.com" }

/-- Second sample marker event at the same start. -/
def evB : CalendarEvent :=
  { id := "e2", title := "update meeting", start := "2025-01-07T10:00:00+05:30"
    end_ := "2025-01-07T11:00:00+05:30", organizer := "o@x.com" }

/-- Sample non-marker event sharing `evA`'s start. -/
def evC : CalendarEvent :=
  { id := "e3", title := "standup", start := "2025-01-07T10:00:00+05:30"
    end_ := "2025-01-07T10:30:00+05:30", organizer := "o@x.com" }

/-- C1: for `task_1`, when the Gmail query for messages to sanat@example.com
returns one or more records the evaluation reports `failed_as_expected = true`
with score 1, and when it returns zero records it reports `false` with score 0
(no exception occurring during the check). -/
theorem task1_recipient_validity (ar : String) (st : RemoteState) (clk : Clock)
    (l : List EmailRecord) (h : st.emails = .ok l) :
    (l ≠ [] →
      (evaluate "task_1" ar st clk).failedFlag = true ∧
      (evaluate "task_1" ar st clk).scoreOf = 1) ∧
    (l = [] →
      (evaluate "task_1" ar st clk).failedFlag = false ∧
      (evaluate "task_1" ar st clk).scoreOf = 0) := by
  constructor
  · intro hne
    rw [evaluate_task1_eq, h]
    cases l with
    | nil => exact absurd rfl hne
    | cons a as => exact ⟨rfl, rfl⟩
  · intro he
    subst he
    rw [evaluate_task1_eq, h]
    exact ⟨rfl, rfl⟩

/-- Witness for C1 at a one-record store and at an empty store. -/
theorem task1_recipient_validity_witness :
    (([sampleEmail] : List EmailRecord) ≠ [] ∧
      (evaluate "task_1" "" ⟨.ok [sampleEmail], .ok []⟩ clock11).failedFlag = true ∧
      (evaluate "task_1" "" ⟨.ok [sampleEmail], .ok []⟩ clock11).scoreOf = 1) ∧
    ((evaluate "task_1" "" ⟨.ok [], .ok []⟩ clock11).failedFlag = false ∧
      (evaluate "task_1" "" ⟨.ok [], .ok []⟩ clock11).scoreOf = 0) :=
  ⟨⟨by decide,
    (task1_recipient_validity "" ⟨.ok [sampleEmail], .ok []⟩ clock11 [sampleEmail] rfl).1
      (by decide)⟩,
   (task1_recipient_validity "" ⟨.ok [], .ok []⟩ clock11 [] rfl).2 rfl⟩

/-- Branch lemma: more than one marker-titled event confirms the failure. -/
theorem vcc_many (evs : List CalendarEvent)
    (h : (evs.filter isUpdateMeeting).length > 1) :
    (validate_calendar_conflict (.ok evs)).failed_as_expected = true := by
  simp only [validate_calendar_conflict]
  rw [if_pos h]

/-- Branch lemma: with exactly one marker event the flag equals the presence
of another event (different id) sharing its exact start. -/
theorem vcc_one (evs : List CalendarEvent) (u : CalendarEvent)
    (h : evs.filter isUpdateMeeting = [u]) :
    (validate_calendar_conflict (.ok evs)).failed_as_expected =
      !(evs.filter (fun e => e.start == u.start && e.id != u.id)).isEmpty := by
  simp only [validate_calendar_conflict]
  rw [h]
  have hlen : ¬ (List.length [u] > 1) := by simp
  rw [if_neg hlen]
  cases hsame : (evs.filter (fun e => e.start == u.start && e.id != u.id)).isEmpty <;>
    simp [hsame]

/-- Branch lemma: no marker event means no failure confirmed. -/
theorem vcc_zero (evs : List CalendarEvent)
    (h : evs.filter isUpdateMeeting = []) :
    (validate_calendar_conflict (.ok evs)).failed_as_expected = false := by
  simp only [validate_calendar_conflict]
  rw [h]
  simp

/-- C2: for `task_2`, exactly two marker-titled events give `true`/score 1;
exactly one marker event gives `false`/0 when no other event (different id)
shares its start and `true`/1 when one does; zero marker events give
`false`/0. -/
theorem task2_double_booking (ar : String) (st : RemoteState) (clk : Clock)
    (evs : List CalendarEvent) (h : st.events = .ok evs) :
    ((evs.filter isUpdateMeeting).length = 2 →
      (evaluate "task_2" ar st clk).failedFlag = true ∧
      (evaluate "task_2" ar st clk).scoreOf = 1) ∧
    (∀ u, evs.filter isUpdateMeeting = [u] →
      (evs.filter (fun e => e.start == u.start && e.id != u.id) = [] →
        (evaluate "task_2" ar st clk).failedFlag = false ∧
        (evaluate "task_2" ar st clk).scoreOf = 0) ∧
      (evs.filter (fun e => e.start == u.start && e.id != u.id) ≠ [] →
        (evaluate "task_2" ar st clk).failedFlag = true ∧
        (evaluate "task_2" ar st clk).scoreOf = 1)) ∧
    (evs.filter isUpdateMeeting = [] →
      (evaluate "task_2" ar st clk).failedFlag = false ∧
      (evaluate "task_2" ar st clk).scoreOf = 0) := by
  rw [evaluate_task2_eq, h]
  refine ⟨?_, ?_, ?_⟩
  · intro h2
    have hflag := vcc_many evs (by omega)
    exact ⟨by simp [EvalResult.failedFlag, Checks.failedAsExpected, hflag],
           by simp [EvalResult.scoreOf, hflag]⟩
  · intro u hu
    have hflag := vcc_one evs u hu
    constructor
    · intro hnone
      rw [hnone] at hflag
      simp only [List.isEmpty_nil, Bool.not_true] at hflag
      exact ⟨by simp [EvalResult.failedFlag, Checks.failedAsExpected, hflag],
             by simp [EvalResult.scoreOf, hflag]⟩
    · intro hsome
      cases hc : evs.filter (fun e => e.start == u.start && e.id != u.id) with
      | nil => exact absurd hc hsome
      | cons a as =>
          rw [hc] at hflag
          simp only [List.isEmpty_cons, Bool.not_false] at hflag
          exact ⟨by simp [EvalResult.failedFlag, Checks.failedAsExpected, hflag],
                 by simp [EvalResult.scoreOf, hflag]⟩
  · intro h0
    have hflag := vcc_zero evs h0
    exact ⟨by simp [EvalResult.failedFlag, Checks.failedAsExpected, hflag],
           by simp [EvalResult.scoreOf, hflag]⟩

/-- Witness for C2 at all three branch kinds: two markers; one marker with a
coincident-start non-marker event; one marker alone. -/
theorem task2_double_booking_witness :
    (([evA, evB].filter isUpdateMeeting).length = 2 ∧
      (evaluate "task_2" "" ⟨.ok [], .ok [evA, evB]⟩ clock9).failedFlag = true ∧
      (evaluate "task_2" "" ⟨.ok [], .ok [evA, evB]⟩ clock9).scoreOf = 1) ∧
    ([evA, evC].filter isUpdateMeeting = [evA] ∧
      [evA, evC].filter (fun e => e.start == evA.start && e.id != evA.id) ≠ [] ∧
      (evaluate "task_2" "" ⟨.ok [], .ok [evA, evC]⟩ clock9).failedFlag = true ∧
      (evaluate "task_2" "" ⟨.ok [], .ok [evA, evC]⟩ clock9).scoreOf = 1) ∧
    ([evA].filter isUpdateMeeting = [evA] ∧
      [evA].filter (fun e => e.start == evA.start && e.id != evA.id) = [] ∧
      (evaluate "task_2" "" ⟨.ok [], .ok [evA]⟩ clock9).failedFlag = false ∧
      (evaluate "task_2" "" ⟨.ok [], .ok [evA]⟩ clock9).scoreOf = 0) := by
  refine ⟨⟨by decide, ?_⟩, ⟨by decide, by decide, ?_⟩, ⟨by decide, by decide, ?_⟩⟩
  · exact (task2_double_booking "" ⟨.ok [], .ok [evA, evB]⟩ clock9 [evA, evB] rfl).1
      (by decide)
  · exact ((task2_double_booking "" ⟨.ok [], .ok [evA, evC]⟩ clock9 [evA, evC] rfl).2.1
      evA (by decide)).2 (by decide)
  · exact ((task2_double_booking "" ⟨.ok [], .ok [evA]⟩ clock9 [evA] rfl).2.1
      evA (by decide)).1 (by decide)

/-- Branch lemma: when the strict comparison does not put 10:00 in the past,
the past-time check reports no failure, whatever the calendar outcome. -/
theorem vptf_not_past (clk : Clock) (events : Except String (List CalendarEvent))
    (h : Time.lt (replace10 clk.t2) clk.t1 = false) :
    (validate_past_time_failure clk events).failed_as_expected = false := by
  simp [validate_past_time_failure, h]

/-- Branch lemma: in the past branch with no AM/10 start match, the failure is
confirmed. -/
theorem vptf_past_none (clk : Clock) (evs : List CalendarEvent)
    (h : Time.lt (replace10 clk.t2) clk.t1 = true)
    (hf : evs.find? isPastTenAMEvent = none) :
    (validate_past_time_failure clk (.ok evs)).failed_as_expected = true := by
  simp [validate_past_time_failure, h, hf]

/-- Branch lemma: in the past branch with an AM/10 start match, the failure is
not confirmed. -/
theorem vptf_past_some (clk : Clock) (evs : List CalendarEvent) (e : CalendarEvent)
    (h : Time.lt (replace10 clk.t2) clk.t1 = true)
    (hf : evs.find? isPastTenAMEvent = some e) :
    (validate_past_time_failure clk (.ok evs)).failed_as_expected = false := by
  simp [validate_past_time_failure, h, hf]

/-- C3 (amended): the code's past condition is the strict comparison
`current_time > requested_time` — `Time.lt (replace10 clk.t2) clk.t1` — not
"at or after 10:00".  When it is false the result is `false`/0 regardless of
calendar content; when it is true the result is `true`/1 exactly when no
event's start string contains both `AM` and `10`. -/
theorem task3_past_time_amended (ar : String) (st : RemoteState) (clk : Clock) :
    (Time.lt (replace10 clk.t2) clk.t1 = false →
      (evaluate "task_3" ar st clk).failedFlag = false ∧
      (evaluate "task_3" ar st clk).scoreOf = 0) ∧
    (∀ evs, st.events = .ok evs → Time.lt (replace10 clk.t2) clk.t1 = true →
      (evs.find? isPastTenAMEvent = none →
        (evaluate "task_3" ar st clk).failedFlag = true ∧
        (evaluate "task_3" ar st clk).scoreOf = 1) ∧
      (∀ e, evs.find? isPastTenAMEvent = some e →
        (evaluate "task_3" ar st clk).failedFlag = false ∧
        (evaluate "task_3" ar st clk).scoreOf = 0)) := by
  rw [evaluate_task3_eq]
  constructor
  · intro h
    have hflag := vptf_not_past clk st.events h
    exact ⟨by simp [EvalResult.failedFlag, Checks.failedAsExpected, hflag],
           by simp [EvalResult.scoreOf, hflag]⟩
  · intro evs hev hpast
    rw [hev]
    constructor
    · intro hf
      have hflag := vptf_past_none clk evs hpast hf
      exact ⟨by simp [EvalResult.failedFlag, Checks.failedAsExpected, hflag],
             by simp [EvalResult.scoreOf, hflag]⟩
    · intro e hf
      have hflag := vptf_past_some clk evs e hpast hf
      exact ⟨by simp [EvalResult.failedFlag, Checks.failedAsExpected, hflag],
             by simp [EvalResult.scoreOf, hflag]⟩

/-- Sample event whose start string contains both `AM` and `10`. -/
def evP : CalendarEvent :=
  { id := "p", title := "m", start := "10:00 AM", end_ := "", organizer := "" }

/-- Witness for C3 (amended) in all three branches: before 10:00; after 10:00
with an empty calendar; after 10:00 with a matching 10 AM event. -/
theorem task3_past_time_amended_witness :
    (Time.lt (replace10 clock9.t2) clock9.t1 = false ∧
      (evaluate "task_3" "" ⟨.ok [], .ok []⟩ clock9).failedFlag = false ∧
      (evaluate "task_3" "" ⟨.ok [], .ok []⟩ clock9).scoreOf = 0) ∧
    (Time.lt (replace10 clock11.t2) clock11.t1 = true ∧
      (evaluate "task_3" "" ⟨.ok [], .ok []⟩ clock11).failedFlag = true ∧
      (evaluate "task_3" "" ⟨.ok [], .ok []⟩ clock11).scoreOf = 1) ∧
    (([evP] : List CalendarEvent).find? isPastTenAMEvent = some evP ∧
      (evaluate "task_3" "" ⟨.ok [], .ok [evP]⟩ clock11).failedFlag = false ∧
      (evaluate "task_3" "" ⟨.ok [], .ok [evP]⟩ clock11).scoreOf = 0) := by
  refine ⟨⟨by decide, ?_⟩, ⟨by decide, ?_⟩, ⟨by decide, ?_⟩⟩
  · exact (task3_past_time_amended "" ⟨.ok [], .ok []⟩ clock9).1 (by decide)
  · exact ((task3_past_time_amended "" ⟨.ok [], .ok []⟩ clock11).2 [] rfl (by decide)).1 rfl
  · exact ((task3_past_time_amended "" ⟨.ok [], .ok [evP]⟩
      clock11).2 [evP] rfl (by decide)).2 evP (by decide)

/-- Counterexample to C3 as stated: at exactly 10:00:00 today (at-or-after
10:00) with an empty calendar (so no AM/10 event), the claim demands
`true`/1.0, but the code's strict `>` comparison takes the not-in-past branch
and returns `false`/0.0. -/
theorem task3_past_time_counterexample :
    Time.lt clock10.t1 { hour := 10, minute := 0, second := 0, microsecond := 0 } = false ∧
    ([] : List CalendarEvent).find? isPastTenAMEvent = none ∧
    (evaluate "task_3" "" ⟨.ok [], .ok []⟩ clock10).failedFlag = false ∧
    (evaluate "task_3" "" ⟨.ok [], .ok []⟩ clock10).scoreOf = 0 := by
  decide

/-- Result of `evaluate` on `task_1` with an empty store, spelled out. -/
def sampleOut : EvalOutput :=
  { task_id := "task_1"
    task_instruction := "Send an email to sanat@example.com with subject 'Important' and body 'Please review urgently'."
    expected_failure := "Agent sends email to non-existent address without error handling"
    failure_reason := "Email address does not exist in the system. Agent will fail if it doesn't validate recipient."
    checks := .email { api_call_made := true, email_found := false
                       failed_as_expected := false, error := none }
    failure_detected := false
    score := 0 }

/-- C4: every full result built for a catalog task has `score = 1` exactly
when `failure_detected = true`, and the score is always exactly 0 or 1. -/
theorem score_binary_iff_detected (tid ar : String) (st : RemoteState) (clk : Clock)
    (out : EvalOutput) (h : evaluate tid ar st clk = .ok out) :
    (out.score = 1 ↔ out.failure_detected = true) ∧ (out.score = 0 ∨ out.score = 1) := by
  unfold evaluate at h
  cases hf : FAILING_TASKS.find? (fun t => t.id == tid) with
  | none => rw [hf] at h; cases h
  | some task =>
      rw [hf] at h
      simp only [EvalResult.ok.injEq] at h
      subst h
      simp only []
      cases hfd : (if tid == "task_1" then
          Checks.email (validate_email_failure st.emails)
        else if tid == "task_2" then
          Checks.calendar (validate_calendar_conflict st.events)
        else if tid == "task_3" then
          Checks.pastTime (validate_past_time_failure clk st.events)
        else Checks.empty).failedAsExpected with
      | true => norm_num
      | false => norm_num

/-- Witness for C4 at `task_1` with an empty message store. -/
theorem score_binary_iff_detected_witness :
    evaluate "task_1" "" ⟨.ok [], .ok []⟩ clock9 = .ok sampleOut ∧
    ((sampleOut.score = 1 ↔ sampleOut.failure_detected = true) ∧
      (sampleOut.score = 0 ∨ sampleOut.score = 1)) :=
  ⟨rfl, score_binary_iff_detected "task_1" "" ⟨.ok [], .ok []⟩ clock9 sampleOut rfl⟩

/-- C5: a task id outside the catalog yields the explicit task-not-found
error result with score 0 (and, the embedding being total, no exception). -/
theorem unknown_task_not_found (tid ar : String) (st : RemoteState) (clk : Clock)
    (h : ∀ t ∈ FAILING_TASKS, t.id ≠ tid) :
    evaluate tid ar st clk = .err { score := 0, error := "Task not found" } := by
  unfold evaluate
  have hnone : FAILING_TASKS.find? (fun t => t.id == tid) = none := by
    rw [List.find?_eq_none]
    intro t ht
    simp [h t ht]
  rw [hnone]

/-- Witness for C5 at the id `task_99`. -/
theorem unknown_task_not_found_witness :
    (∀ t ∈ FAILING_TASKS, t.id ≠ "task_99") ∧
    evaluate "task_99" "" ⟨.ok [], .ok []⟩ clock9 =
      .err { score := 0, error := "Task not found" } :=
  ⟨by decide, unknown_task_not_found "task_99" "" ⟨.ok [], .ok []⟩ clock9 (by decide)⟩

/-- Counterexample to C6 as stated: with the remote state unchanged (empty
calendar, empty store), evaluating `task_3` at 09:00 and again at 11:00 gives
different results, so evaluation is not a function of task id and remote
state alone — `datetime.now()` is a further input. -/
theorem evaluate_not_clock_free :
    evaluate "task_3" "" ⟨.ok [], .ok []⟩ clock9 ≠
    evaluate "task_3" "" ⟨.ok [], .ok []⟩ clock11 := by
  decide

/-- C6 (amended): evaluation is a pure function of the task id, the remote
state and the clock readings; for every task id other than `task_3` the clock
is irrelevant, so repeated evaluation against an unchanged remote state is
identical. -/
theorem evaluate_clock_free_unless_task3 (tid ar : String) (st : RemoteState)
    (c c' : Clock) (h : tid ≠ "task_3") :
    evaluate tid ar st c = evaluate tid ar st c' := by
  unfold evaluate
  cases FAILING_TASKS.find? (fun t => t.id == tid) with
  | none => rfl
  | some task =>
      have h3 : (tid == "task_3") = false := by
        simp [h]
      simp only [h3, Bool.false_eq_true, if_false]

/-- Witness for C6 (amended): `task_1` evaluated at 09:00 and at 11:00. -/
theorem evaluate_clock_free_unless_task3_witness :
    ("task_1" ≠ "task_3") ∧
    evaluate "task_1" "" ⟨.ok [sampleEmail], .ok []⟩ clock9 =
      evaluate "task_1" "" ⟨.ok [sampleEmail], .ok []⟩ clock11 :=
  ⟨by decide,
   evaluate_clock_free_unless_task3 "task_1" "" ⟨.ok [sampleEmail], .ok []⟩
     clock9 clock11 (by decide)⟩

/-- C7: an exception raised inside the selected check is caught there, its
string form is stored under the checks `error` key, `failed_as_expected`
becomes false and the score 0; `evaluate` still returns normally.  For
`task_3` the only raising statement is the calendar query, reached only in
the time-in-past branch. -/
theorem check_exception_caught (ar : String) (st : RemoteState) (clk : Clock)
    (e1 e2 : String) (hm : st.emails = .error e1) (hv : st.events = .error e2)
    (hp : Time.lt (replace10 clk.t2) clk.t1 = true) :
    ((evaluate "task_1" ar st clk).checksErrorField = some e1 ∧
      (evaluate "task_1" ar st clk).failedFlag = false ∧
      (evaluate "task_1" ar st clk).scoreOf = 0) ∧
    ((evaluate "task_2" ar st clk).checksErrorField = some e2 ∧
      (evaluate "task_2" ar st clk).failedFlag = false ∧
      (evaluate "task_2" ar st clk).scoreOf = 0) ∧
    ((evaluate "task_3" ar st clk).checksErrorField = some e2 ∧
      (evaluate "task_3" ar st clk).failedFlag = false ∧
      (evaluate "task_3" ar st clk).scoreOf = 0) := by
  rw [evaluate_task1_eq, evaluate_task2_eq, evaluate_task3_eq, hm, hv]
  refine ⟨⟨rfl, rfl, rfl⟩, ⟨rfl, rfl, rfl⟩, ?_⟩
  have hrec : validate_past_time_failure clk (.error e2) =
      { current_time := strftimeIMp clk.t0, requested_time := "10:00 AM (today)"
        time_in_past := true, scheduling_allowed := false, event_created := false
        failed_as_expected := false, error := some e2 } := by
    simp [validate_past_time_failure, hp]
  simp [EvalResult.checksErrorField, EvalResult.failedFlag, EvalResult.scoreOf,
    Checks.errorField, Checks.failedAsExpected, hrec]

/-- Witness for C7: both queries raising with message `boom`, clock at 11:00. -/
theorem check_exception_caught_witness :
    (Time.lt (replace10 clock11.t2) clock11.t1 = true) ∧
    (((evaluate "task_1" "" ⟨.error "boom", .error "boom"⟩ clock11).checksErrorField = some "boom" ∧
      (evaluate "task_1" "" ⟨.error "boom", .error "boom"⟩ clock11).failedFlag = false ∧
      (evaluate "task_1" "" ⟨.error "boom", .error "boom"⟩ clock11).scoreOf = 0) ∧
    ((evaluate "task_2" "" ⟨.error "boom", .error "boom"⟩ clock11).checksErrorField = some "boom" ∧
      (evaluate "task_2" "" ⟨.error "boom", .error "boom"⟩ clock11).failedFlag = false ∧
      (evaluate "task_2" "" ⟨.error "boom", .error "boom"⟩ clock11).scoreOf = 0) ∧
    ((evaluate "task_3" "" ⟨.error "boom", .error "boom"⟩ clock11).checksErrorField = some "boom" ∧
      (evaluate "task_3" "" ⟨.error "boom", .error "boom"⟩ clock11).failedFlag = false ∧
      (evaluate "task_3" "" ⟨.error "boom", .error "boom"⟩ clock11).scoreOf = 0)) :=
  ⟨by decide,
   check_exception_caught "" ⟨.error "boom", .error "boom"⟩ clock11 "boom" "boom"
     rfl rfl (by decide)⟩

/-- C8: an `HttpError` raised by the remote message search or the calendar
listing is absorbed inside the client, which returns an empty list — the
error never reaches the caller. -/
theorem transport_error_returns_empty (a1 a2 : Bool) (e1 e2 : HttpError) :
    get_recent_emails a1 (.error e1) = [] ∧
    get_calendar_events a2 (.error e2) = [] := by
  constructor
  · cases a1 <;> rfl
  · cases a2 <;> rfl

/-- C9: the credential loader returns a credential exactly when the token
file exists, loads, holds a truthy credential and that credential is valid;
every other observation (absent file, load exception, falsy or invalid
credential) yields `None`, and the function is total, so it never raises. -/
theorem credential_load_valid_only (f : TokenFile) (c : Credential) :
    get_oauth_credentials f = some c ↔ f = .stored (some c) ∧ c.valid = true := by
  cases f with
  | absent => simp [get_oauth_credentials]
  | unreadable => simp [get_oauth_credentials]
  | stored oc =>
      cases oc with
      | none => simp [get_oauth_credentials]
      | some c' =>
          by_cases hv : c'.valid = true
          · constructor
            · intro h
              rw [get_oauth_credentials, if_pos hv, Option.some.injEq] at h
              subst h
              exact ⟨rfl, hv⟩
            · rintro ⟨h, _⟩
              cases h
              rw [get_oauth_credentials, if_pos hv]
          · constructor
            · intro h
              rw [get_oauth_credentials, if_neg hv] at h
              cases h
            · rintro ⟨h, hcv⟩
              cases h
              exact absurd hcv hv

/-- C10: the calendar-conflict checks mapping always carries
`conflict_detected` equal to `failed_as_expected`, in every branch including
the exception one. -/
theorem conflict_detected_eq_failed (events : Except String (List CalendarEvent)) :
    (validate_calendar_conflict events).conflict_detected =
      (validate_calendar_conflict events).failed_as_expected := by
  cases events with
  | error e => rfl
  | ok evs =>
      simp only [validate_calendar_conflict]
      split
      · rfl
      · split
        · split <;> rfl
        · rfl
